import Mathlib

/-!
Shallow embedding of the Pusher websocket client (`client.go` of
RadiusNetworks/pusher-ws-go) and proofs about its session state machine:
handshake, activity-timeout resolution, the read loop's event routing, the
channel registry (subscribe/unsubscribe), and disconnect broadcast.

Conventions of the embedding:
* Go maps keyed by strings become association lists with one entry per key
  (`regLookup` / `regSet` / `regErase` mirror map index, assign and delete).
* Go channels used as listener sinks are identified by natural numbers; a
  delivery is recorded as an effect rather than as an actual send.
* `time.Duration` is an `Int` counting nanoseconds (`nsPerSecond` is
  `time.Second`).
* The websocket transport, JSON (de)serialization and the auth HTTP
  collaborator are external boundaries: decode results and auth outcomes are
  parameters of the functions that consume them.
-/

namespace PusherWs

/-- Event-name constant from the Go constants block: "pusher:ping". -/
def pusherPing : String := "pusher:ping"

/-- Event-name constant: "pusher:pong". -/
def pusherPong : String := "pusher:pong"

/-- Event-name constant: "pusher:error". -/
def pusherError : String := "pusher:error"

/-- Event-name constant: "pusher:subscribe". -/
def pusherSubscribe : String := "pusher:subscribe"

/-- Event-name constant: "pusher:unsubscribe". -/
def pusherUnsubscribe : String := "pusher:unsubscribe"

/-- Event-name constant: "pusher:connection_established". -/
def pusherConnEstablished : String := "pusher:connection_established"

/-- Event-name constant: "pusher:subscription_succeeded". -/
def pusherSubSucceeded : String := "pusher:subscription_succeeded"

/-- Event-name constant: "pusher_internal:subscription_succeeded". -/
def pusherInternalSubSucceeded : String := "pusher_internal:subscription_succeeded"

/-- Event-name constant: "pusher_internal:member_added". -/
def pusherInternalMemberAdded : String := "pusher_internal:member_added"

/-- Event-name constant: "pusher_internal:member_removed". -/
def pusherInternalMemberRemoved : String := "pusher_internal:member_removed"

/-- The raw ping frame the heartbeat sends (Go `pingPayload`). -/
def pingPayload : String := "\x7b\"event\":\"pusher:ping\",\"data\":\"\x7b\x7d\"\x7d"

/-- The raw pong frame the read loop sends in reply to a ping (Go `pongPayload`). -/
def pongPayload : String := "\x7b\"event\":\"pusher:pong\",\"data\":\"\x7b\x7d\"\x7d"

/-- Value of `time.Second` in nanoseconds; Go durations are `int64` nanosecond counts. -/
def nsPerSecond : Int := 1000000000

/-- Modelled from the spec: the protocol envelope shape `(event, data, channel)`
(the `Event` struct lives in a repository file not under `src/`; its shape is
fixed by the spec's "Protocol envelope shape" and by every use in `client.go`).
The double-encoded payload (`json.RawMessage`) is kept as an opaque string. -/
structure Event where
  event : String
  data : String
  channel : String
deriving DecidableEq

/-- Go `error` values that the client produces or stores. `eventError ev` is
the result of `extractEventError` on envelope `ev`; `wrapped e` is
`fmt.Errorf("pusher connection closed with error: %w", e)`; `msg` covers
plain formatted errors such as the unexpected-handshake-event error. -/
inductive GoError where
  | msg (s : String)
  | eventError (ev : Event)
  | wrapped (e : GoError)
deriving DecidableEq

/-- Modelled from the spec: `extractEventError` lives in a repository file not
under `src/`; the spec says only that a protocol error envelope "carries a code
and message from the server", so the extraction is kept abstract as a
constructor tagging the envelope it was extracted from. -/
def extractEventError (ev : Event) : GoError := GoError.eventError ev

/-- The caller-provided buffered `Errors chan error`: current buffer contents
and capacity. A send succeeds when the buffer has room. -/
structure ErrChan where
  buf : List GoError
  cap : Nat
deriving DecidableEq

/-- Go `sendError` (client.go): non-blocking select-send of an error into the
configured channel. A `none` channel (Go nil channel) never accepts, so the
default branch drops the error; a full buffer likewise drops it. -/
def sendErrorTo : Option ErrChan → GoError → Option ErrChan
  | none, _ => none
  | some ch, e => if ch.buf.length < ch.cap then some { ch with buf := ch.buf ++ [e] } else some ch

/-- The websocket connection handle; `closeErr` is the error its `Close`
method would report. -/
structure WsConn where
  closeErr : Option GoError
deriving DecidableEq

/-- The three channel variants `Client.Subscribe` can construct: the plain
`channel`, `privateChannel`, and `presenceChannel` wrappers. -/
inductive ChannelKind where
  | publicChan
  | privateChan
  | presenceChan
deriving DecidableEq

/-- One entry of the subscribed-channels registry: the `channel` base struct
plus the variant tag, its subscription flag, its per-channel event bindings
(event name to listener sinks) and, for the presence variant, the member map. -/
structure ChannelEntry where
  name : String
  kind : ChannelKind
  subscribed : Bool
  boundEvents : List (String × List Nat)
  members : List (String × String)
deriving DecidableEq

/-- Go map index `m[k]` on a string-keyed association list. -/
def regLookup {α : Type} : List (String × α) → String → Option α
  | [], _ => none
  | (k, v) :: t, key => if k = key then some v else regLookup t key

/-- Go map assignment `m[k] = v`: replaces the value under an existing key. -/
def regSet {α : Type} : List (String × α) → String → α → List (String × α)
  | [], _, _ => []
  | (k, v) :: t, key, w => if k = key then (k, w) :: t else (k, v) :: regSet t key w

/-- Go map `delete(m, k)`. -/
def regErase {α : Type} : List (String × α) → String → List (String × α)
  | [], _ => []
  | (k, v) :: t, key => if k = key then regErase t key else (k, v) :: regErase t key

/-- Go `strings.HasPrefix s pre`, via the character list of each string. -/
def hasPfx (s pre : String) : Bool := pre.toList.isPrefixOf s.toList

/-- The session state of a `Client` (client.go): the fields the core state
machine reads and writes. `activityTimeoutCfg` is the exported
`ActivityTimeout` override; `activityTimeoutEff` is the private
`_activityTimeout` resolved at handshake. `activityTimerReset` counts the
messages sitting in the capacity-1 reset channel. -/
structure ClientState where
  connected : Bool
  socketID : String
  activityTimeoutCfg : Int
  activityTimeoutEff : Int
  disconnectErr : Option GoError
  closes : List Nat
  errors : Option ErrChan
  boundEvents : List (String × List Nat)
  subscribedChannels : List (String × ChannelEntry)
  activityTimerReset : Nat
  ws : Option WsConn
deriving DecidableEq

/-- The decoded double-encoded handshake payload (`connectionData` struct):
socket id and the server-suggested activity timeout in seconds. -/
structure ConnectionData where
  socketID : String
  activityTimeout : Int
deriving DecidableEq

/-- The handshake part of `Connect` (client.go lines 159-193), after the dial
and the single `websocket.JSON.Receive` have produced envelope `ev`. JSON
decoding is an external boundary, so the `UnmarshalDataString` outcome for the
connection-established payload is passed in as `dec`. Returns the updated
session and the error `Connect` returns (`none` on success). -/
def connectHandshake (c : ClientState) (ev : Event) (dec : Option ConnectionData) :
    ClientState × Option GoError :=
  if ev.event = pusherError then
    (c, some (extractEventError ev))
  else if ev.event = pusherConnEstablished then
    match dec with
    | none => (c, some (GoError.msg "json unmarshal error"))
    | some cd =>
      ({ c with
          connected := true
          socketID := cd.socketID
          activityTimeoutEff :=
            if c.activityTimeoutCfg > 0 then c.activityTimeoutCfg
            else cd.activityTimeout * nsPerSecond
          activityTimerReset := 0
          boundEvents := []
          subscribedChannels := []
          disconnectErr := none }, none)
  else
    (c, some (GoError.msg ("Got unknown event type from Pusher: " ++ ev.event)))

/-- Go `resetActivityTimer` (client.go lines 203-210): a select-send into the
capacity-1 reset channel with a default branch, so a request that would block
is dropped and the function always returns immediately. -/
def resetActivityTimer (pending : Nat) : Nat :=
  if pending < 1 then pending + 1 else pending

/-- What one iteration of the `heartbeat` loop does. -/
inductive HeartbeatEffect where
  | timerRestart
  | pingSent
deriving DecidableEq

/-- One iteration of the `heartbeat` loop (client.go lines 212-231): a pending
reset signal is consumed and the idle timer restarted at the effective
timeout; otherwise timer expiry sends a ping frame. (When neither is ready the
select suspends: no effect.) -/
def heartbeatStep (pending : Nat) (timerFired : Bool) : Nat × List HeartbeatEffect :=
  if 0 < pending then (pending - 1, [HeartbeatEffect.timerRestart])
  else if timerFired then (pending, [HeartbeatEffect.pingSent])
  else (pending, [])

/-- Observable effects of one read-loop iteration. -/
structure ListenEffects where
  sentPayloads : List String
  delivered : List Nat
  dispatchedChannel : Option String
deriving DecidableEq

/-- The body of one `listen` iteration (client.go lines 240-279) after
`websocket.JSON.Receive` successfully produced envelope `ev`: request an
activity-timer reset, then switch on the event name. Ping is answered with a
pong frame; pong does nothing; an error envelope is forwarded to the errors
channel; everything else is fanned out to the session-level bindings for that
event name and dispatched to the matching channel entry's `handleEvent`.
`handle` stands for `internalChannel.handleEvent` (channel.go, an external
file): it maps the entry, the event name and the payload to the updated entry. -/
def listenStep (handle : ChannelEntry → String → String → ChannelEntry)
    (c : ClientState) (ev : Event) : ClientState × ListenEffects :=
  let c1 := { c with activityTimerReset := resetActivityTimer c.activityTimerReset }
  if ev.event = pusherPing then
    (c1, { sentPayloads := [pongPayload], delivered := [], dispatchedChannel := none })
  else if ev.event = pusherPong then
    (c1, { sentPayloads := [], delivered := [], dispatchedChannel := none })
  else if ev.event = pusherError then
    ({ c1 with errors := sendErrorTo c1.errors (extractEventError ev) },
     { sentPayloads := [], delivered := [], dispatchedChannel := none })
  else
    let targets := (regLookup c1.boundEvents ev.event).getD []
    match regLookup c1.subscribedChannels ev.channel with
    | some entry =>
      let reg := regSet c1.subscribedChannels ev.channel (handle entry ev.event ev.data)
      ({ c1 with subscribedChannels := reg },
       { sentPayloads := [], delivered := targets, dispatchedChannel := some ev.channel })
    | none =>
      (c1, { sentPayloads := [], delivered := targets, dispatchedChannel := none })

/-- The fresh entry `Subscribe` builds for a name not yet in the registry
(client.go lines 297-310): a base `channel` with empty bindings, wrapped by
variant according to the name's prefix — `private-` first, then `presence-`,
else the base channel itself. -/
def newChannelEntry (name : String) : ChannelEntry :=
  { name := name
    kind :=
      if hasPfx name "private-" then ChannelKind.privateChan
      else if hasPfx name "presence-" then ChannelKind.presenceChan
      else ChannelKind.publicChan
    subscribed := false
    boundEvents := []
    members := [] }

/-- Modelled from the spec: `channel.Subscribe` (channel.go, a repository file
not under `src/`). Per the spec: subscribing an already-subscribed channel is a
no-op success; otherwise, after authentication for the private and presence
variants, a `pusher:subscribe` protocol envelope is sent; on auth failure no
envelope is sent and the error is returned while the entry stays registered.
The auth collaborator is an external HTTP call, so its outcome is the
parameter `authOk`. Returns the protocol event names sent and the error. -/
def channelSubscribeSends (authOk : Bool) (ch : ChannelEntry) : List String × Option GoError :=
  if ch.subscribed then ([], none)
  else if ch.kind = ChannelKind.publicChan then ([pusherSubscribe], none)
  else if authOk then ([pusherSubscribe], none)
  else ([], some (GoError.msg "auth request failed"))

/-- Go `Client.Subscribe` (client.go lines 292-317): return the existing entry for
the name if the registry has one, otherwise construct the variant chosen by
the name's prefix and register it; in either case delegate to the entry's own
`Subscribe`. Returns the updated session, the returned channel entry, the
protocol event names sent, and the error. -/
def clientSubscribe (authOk : Bool) (c : ClientState) (name : String) :
    ClientState × ChannelEntry × List String × Option GoError :=
  match regLookup c.subscribedChannels name with
  | some ch => (c, ch, channelSubscribeSends authOk ch)
  | none =>
    let ch := newChannelEntry name
    ({ c with subscribedChannels := (name, ch) :: c.subscribedChannels },
     ch, channelSubscribeSends authOk ch)

/-- Modelled from the spec: `channel.Unsubscribe` (channel.go, a repository
file not under `src/`). Per the spec it "sends an `unsubscribe` protocol
envelope" and a nil return means only that the request was sent. -/
def channelUnsubscribeSends (_ch : ChannelEntry) : List String × Option GoError :=
  ([pusherUnsubscribe], none)

/-- Go `Client.Unsubscribe` (client.go lines 341-352): a name with no registry
entry returns nil immediately; otherwise the entry is deleted from the
registry and the entry's own `Unsubscribe` sends the protocol envelope.
Returns the updated session, the returned error, and the protocol event names
sent. -/
def clientUnsubscribe (c : ClientState) (name : String) :
    ClientState × Option GoError × List String :=
  match regLookup c.subscribedChannels name with
  | none => (c, none, [])
  | some ch =>
    let r := channelUnsubscribeSends ch
    ({ c with subscribedChannels := regErase c.subscribedChannels name }, r.2, r.1)

/-- What one `Disconnect` call produced. -/
structure DisconnectResult where
  state : ClientState
  notified : List (Nat × Option GoError)
  closedChans : List Nat
  ret : Option GoError
deriving DecidableEq

/-- The value `Disconnect` broadcasts: the recorded disconnect cause wrapped as
"pusher connection closed with error: %w" when present, nil on graceful close. -/
def disconnectNote : Option GoError → Option GoError
  | some e => some (GoError.wrapped e)
  | none => none

/-- Go `Client.Disconnect` (client.go lines 407-431): mark the session
not-connected, send the (possibly wrapped) disconnect cause — or nil — to
every registered close listener, close each listener's channel, truncate the
listener list, and finally close the websocket if one was ever established,
returning its close result; with no websocket handle, return nil. -/
def clientDisconnect (c : ClientState) : DisconnectResult :=
  let note := disconnectNote c.disconnectErr
  { state := { c with connected := false, closes := [] }
    notified := c.closes.map (fun id => (id, note))
    closedChans := c.closes
    ret :=
      match c.ws with
      | none => none
      | some w => w.closeErr }

/-- A zero session state, used to build concrete instances. -/
def baseState : ClientState :=
  { connected := false
    socketID := ""
    activityTimeoutCfg := 0
    activityTimeoutEff := 0
    disconnectErr := none
    closes := []
    errors := none
    boundEvents := []
    subscribedChannels := []
    activityTimerReset := 0
    ws := none }

/-- A `handleEvent` stand-in that leaves the channel entry unchanged, used to
instantiate `listenStep` at concrete inputs. -/
def idHandle : ChannelEntry → String → String → ChannelEntry := fun ch _ _ => ch

theorem regLookup_erase_self {α : Type} (l : List (String × α)) (key : String) :
    regLookup (regErase l key) key = none := by
  induction l with
  | nil => rfl
  | cons p t ih =>
    obtain ⟨k, v⟩ := p
    by_cases hk : k = key
    · simp [regErase, hk, ih]
    · simp [regErase, regLookup, hk, ih]

theorem regLookup_erase_other {α : Type} (l : List (String × α)) (key other : String)
    (h : other ≠ key) : regLookup (regErase l key) other = regLookup l other := by
  induction l with
  | nil => rfl
  | cons p t ih =>
    obtain ⟨k, v⟩ := p
    by_cases hk : k = key
    · have hko : k ≠ other := fun he => h (he ▸ hk)
      simp [regErase, regLookup, hk, hko, ih, Ne.symm h]
    · by_cases ho : k = other
      · simp [regErase, regLookup, hk, ho, h]
      · simp [regErase, regLookup, hk, ho, ih]

/-- The two reserved name prefixes are mutually exclusive, so the `private-`
arm of the classification switch never shadows a presence name. -/
theorem presence_not_private (s : String) (h : hasPfx s "presence-" = true) :
    hasPfx s "private-" = false := by
  unfold hasPfx at *
  rcases s with ⟨l⟩
  match l with
  | [] => simp [List.isPrefixOf] at h
  | [a] => simp [List.isPrefixOf] at h
  | [a, b] => simp [List.isPrefixOf] at h
  | a :: b :: e :: t =>
    simp only [String.toList] at h ⊢
    simp [List.isPrefixOf] at h ⊢
    obtain ⟨hp, hr, he, -⟩ := h
    subst hp
    subst hr
    subst he
    intro h1 h2 h3
    exact absurd h3 (by decide)

/-- C2: after a successful handshake, the effective activity timeout equals the
caller-configured override whenever the override is positive, regardless of the
server-suggested value; otherwise it is the server-provided seconds value
converted to a duration. -/
theorem activity_timeout_resolution (c : ClientState) (ev : Event) (cd : ConnectionData)
    (hev : ev.event = pusherConnEstablished) :
    (0 < c.activityTimeoutCfg →
       ((connectHandshake c ev (some cd)).1).activityTimeoutEff = c.activityTimeoutCfg) ∧
    (¬ 0 < c.activityTimeoutCfg →
       ((connectHandshake c ev (some cd)).1).activityTimeoutEff =
         cd.activityTimeout * nsPerSecond) := by
  constructor <;> intro h <;>
    simp [connectHandshake, hev, pusherConnEstablished, pusherError, h]

/-- Witness for C2: override of 5 s beats a server suggestion of 120 s, and
with no override the server's 120 s is converted to a duration. -/
theorem activity_timeout_resolution_witness :
    ((connectHandshake { baseState with activityTimeoutCfg := 5 * nsPerSecond }
        { event := pusherConnEstablished, data := "", channel := "" }
        (some { socketID := "s1", activityTimeout := 120 })).1).activityTimeoutEff =
      5 * nsPerSecond ∧
    ((connectHandshake baseState
        { event := pusherConnEstablished, data := "", channel := "" }
        (some { socketID := "s1", activityTimeout := 120 })).1).activityTimeoutEff =
      120 * nsPerSecond := by
  constructor
  · exact (activity_timeout_resolution
      { baseState with activityTimeoutCfg := 5 * nsPerSecond }
      { event := pusherConnEstablished, data := "", channel := "" }
      { socketID := "s1", activityTimeout := 120 } rfl).1 (by decide)
  · exact (activity_timeout_resolution baseState
      { event := pusherConnEstablished, data := "", channel := "" }
      { socketID := "s1", activityTimeout := 120 } rfl).2 (by decide)

/-- C3: the handshake reads one envelope. An error envelope makes `Connect`
return the extracted protocol error; the connection-established envelope with
a decodable payload marks the session connected and records the socket id,
while a payload that fails to decode leaves the session not connected; any
other event name produces the unexpected-handshake-event error. Every failure
leaves the session not connected. -/
theorem connect_handshake_cases (c : ClientState) (ev : Event) (dec : Option ConnectionData)
    (hconn : c.connected = false) :
    (ev.event = pusherError →
       connectHandshake c ev dec = (c, some (extractEventError ev)) ∧
       ((connectHandshake c ev dec).1).connected = false) ∧
    (ev.event = pusherConnEstablished →
       (∀ cd, dec = some cd →
          (connectHandshake c ev dec).2 = none ∧
          ((connectHandshake c ev dec).1).connected = true ∧
          ((connectHandshake c ev dec).1).socketID = cd.socketID) ∧
       (dec = none →
          (connectHandshake c ev dec).2 = some (GoError.msg "json unmarshal error") ∧
          ((connectHandshake c ev dec).1).connected = false)) ∧
    (ev.event ≠ pusherError → ev.event ≠ pusherConnEstablished →
       (connectHandshake c ev dec).2 =
         some (GoError.msg ("Got unknown event type from Pusher: " ++ ev.event)) ∧
       ((connectHandshake c ev dec).1).connected = false) := by
  refine ⟨fun he => ?_, ⟨fun he => ⟨fun cd hcd => ?_, fun hcd => ?_⟩, fun h1 h2 => ?_⟩⟩
  · simp [connectHandshake, he, hconn]
  · subst hcd
    simp [connectHandshake, he, pusherConnEstablished, pusherError]
  · subst hcd
    simp [connectHandshake, he, pusherConnEstablished, pusherError, hconn]
  · simp [connectHandshake, h1, h2, hconn]

/-- Witness for C3: the three handshake outcomes at concrete envelopes — an
error envelope, a connection-established envelope with decoded payload, and an
unknown event name. -/
theorem connect_handshake_cases_witness :
    (connectHandshake baseState { event := pusherError, data := "", channel := "" } none).2 =
      some (extractEventError { event := pusherError, data := "", channel := "" }) ∧
    ((connectHandshake baseState { event := pusherConnEstablished, data := "", channel := "" }
        (some { socketID := "sock-7", activityTimeout := 120 })).1).connected = true ∧
    (connectHandshake baseState { event := "bogus:event", data := "", channel := "" } none).2 =
      some (GoError.msg "Got unknown event type from Pusher: bogus:event") := by
  refine ⟨?_, ?_, ?_⟩
  · have h := (connect_handshake_cases baseState
      { event := pusherError, data := "", channel := "" } none rfl).1 rfl
    exact h.1 ▸ rfl
  · exact (((connect_handshake_cases baseState
      { event := pusherConnEstablished, data := "", channel := "" }
      (some { socketID := "sock-7", activityTimeout := 120 }) rfl).2.1 rfl).1
      { socketID := "sock-7", activityTimeout := 120 } rfl).2.1
  · have h := ((connect_handshake_cases baseState
      { event := "bogus:event", data := "", channel := "" } none rfl).2.2
      (by decide) (by decide)).1
    simpa using h

/-- C7: the activity-timer reset request never blocks and the pending-reset
slot holds at most one signal: any number of reset requests issued before the
heartbeat loop processes one leaves exactly one pending signal (a request
against a full slot is dropped), and processing it yields a single timer
restart and empties the slot. -/
theorem reset_requests_coalesce :
    (∀ k : Nat, resetActivityTimer^[k] 0 ≤ 1) ∧
    (∀ k : Nat, 1 ≤ k → resetActivityTimer^[k] 0 = 1) ∧
    resetActivityTimer 1 = 1 ∧
    (∀ k : Nat, 1 ≤ k → ∀ fired : Bool,
       heartbeatStep (resetActivityTimer^[k] 0) fired = (0, [HeartbeatEffect.timerRestart])) := by
  have key : ∀ k : Nat, 1 ≤ k → resetActivityTimer^[k] 0 = 1 := by
    intro k hk
    induction k with
    | zero => omega
    | succ n ih =>
      rcases Nat.eq_zero_or_pos n with hn | hn
      · subst hn
        rfl
      · rw [Function.iterate_succ_apply', ih hn]
        rfl
  refine ⟨?_, key, rfl, ?_⟩
  · intro k
    rcases Nat.eq_zero_or_pos k with hk | hk
    · subst hk
      decide
    · rw [key k hk]
  · intro k hk fired
    rw [key k hk]
    cases fired <;> rfl

/-- Witness for C7: three back-to-back reset requests leave one pending signal
and the heartbeat then performs exactly one restart. -/
theorem reset_requests_coalesce_witness :
    resetActivityTimer^[3] 0 = 1 ∧
    heartbeatStep (resetActivityTimer^[3] 0) false = (0, [HeartbeatEffect.timerRestart]) := by
  exact ⟨reset_requests_coalesce.2.1 3 (by decide),
    reset_requests_coalesce.2.2.2 3 (by decide) false⟩

/-- C1 counterexample: the read loop's switch intercepts only ping, pong and
error. A reserved connection-established envelope received after handshake
falls into the default arm and IS delivered to the listener (sink 7) that a
session-level `Bind` registered for that very event name, contradicting the
claim that reserved names are never delivered to generic bindings. -/
theorem reserved_event_delivered_counterexample :
    (listenStep idHandle
      { baseState with
          connected := true
          boundEvents := [(pusherConnEstablished, [7])] }
      { event := pusherConnEstablished, data := "", channel := "" }).2.delivered = [7] := by
  decide

/-- C1 amended: only the ping, pong and error envelopes are withheld from
session-level bindings (and they trigger no channel dispatch either); an
envelope with any other event name — including connection established,
subscription succeeded (generic and internal), member added and member
removed — is delivered to exactly the listeners bound to that name. -/
theorem listen_withholds_only_ping_pong_error
    (handle : ChannelEntry → String → String → ChannelEntry)
    (c : ClientState) (ev : Event) :
    ((ev.event = pusherPing ∨ ev.event = pusherPong ∨ ev.event = pusherError) →
       (listenStep handle c ev).2.delivered = [] ∧
       (listenStep handle c ev).2.dispatchedChannel = none) ∧
    (ev.event ≠ pusherPing → ev.event ≠ pusherPong → ev.event ≠ pusherError →
       (listenStep handle c ev).2.delivered = (regLookup c.boundEvents ev.event).getD []) := by
  constructor
  · rintro (he | he | he) <;>
      simp [listenStep, he, pusherPing, pusherPong, pusherError]
  · intro h1 h2 h3
    rcases hm : regLookup c.subscribedChannels ev.channel with _ | entry <;>
      simp [listenStep, h1, h2, h3, hm]

/-- Witness for C1 amended: a ping envelope is withheld from a listener bound
to "pusher:ping", while an internal subscription-succeeded envelope reaches
the listener (sink 4) bound to that name. -/
theorem listen_withholds_only_ping_pong_error_witness :
    (listenStep idHandle
      { baseState with connected := true, boundEvents := [(pusherPing, [3])] }
      { event := pusherPing, data := "", channel := "" }).2.delivered = [] ∧
    (listenStep idHandle
      { baseState with
          connected := true
          boundEvents := [(pusherInternalSubSucceeded, [4])] }
      { event := pusherInternalSubSucceeded, data := "", channel := "" }).2.delivered = [4] := by
  constructor
  · exact ((listen_withholds_only_ping_pong_error idHandle
      { baseState with connected := true, boundEvents := [(pusherPing, [3])] }
      { event := pusherPing, data := "", channel := "" }).1 (Or.inl rfl)).1
  · have h := (listen_withholds_only_ping_pong_error idHandle
      { baseState with
          connected := true
          boundEvents := [(pusherInternalSubSucceeded, [4])] }
      { event := pusherInternalSubSucceeded, data := "", channel := "" }).2
      (by decide) (by decide) (by decide)
    simpa [regLookup] using h

/-- C9: a pusher:error envelope processed by the read loop is forwarded to the
configured error channel by a non-blocking send — appended when the buffer has
room, dropped when the channel is absent or full — and nothing else changes:
the connected flag, the bound-events table, the channel registry, the
disconnect cause and the close-listener list are untouched, no frame is sent,
no listener receives the envelope, and no channel dispatch happens. -/
theorem error_envelope_forward_frame
    (handle : ChannelEntry → String → String → ChannelEntry)
    (c : ClientState) (ev : Event)
    (hconn : c.connected = true) (hev : ev.event = pusherError) :
    ((listenStep handle c ev).1).connected = true ∧
    ((listenStep handle c ev).1).boundEvents = c.boundEvents ∧
    ((listenStep handle c ev).1).subscribedChannels = c.subscribedChannels ∧
    ((listenStep handle c ev).1).disconnectErr = c.disconnectErr ∧
    ((listenStep handle c ev).1).closes = c.closes ∧
    (listenStep handle c ev).2.delivered = [] ∧
    (listenStep handle c ev).2.sentPayloads = [] ∧
    (listenStep handle c ev).2.dispatchedChannel = none ∧
    (c.errors = none → ((listenStep handle c ev).1).errors = none) ∧
    (∀ ech, c.errors = some ech → ech.buf.length < ech.cap →
       ((listenStep handle c ev).1).errors =
         some { ech with buf := ech.buf ++ [extractEventError ev] }) ∧
    (∀ ech, c.errors = some ech → ¬ ech.buf.length < ech.cap →
       ((listenStep handle c ev).1).errors = some ech) := by
  refine ⟨?_, ?_, ?_, ?_, ?_, ?_, ?_, ?_, ?_, ?_, ?_⟩ <;>
    simp [listenStep, hev, pusherPing, pusherPong, pusherError, hconn]
  · intro h
    simp [sendErrorTo, h]
  · intro ech h hroom
    simp [sendErrorTo, h, hroom]
  · intro ech h hfull
    simp [sendErrorTo, h, hfull]

/-- Witness for C9: with a one-slot empty error buffer, the extracted error is
appended; the session stays connected with its binding table intact. -/
theorem error_envelope_forward_frame_witness :
    ((listenStep idHandle
        { baseState with
            connected := true
            errors := some { buf := [], cap := 1 }
            boundEvents := [("my-event", [9])] }
        { event := pusherError, data := "boom", channel := "" }).1).errors =
      some { buf := [extractEventError { event := pusherError, data := "boom", channel := "" }],
             cap := 1 } ∧
    ((listenStep idHandle
        { baseState with
            connected := true
            errors := some { buf := [], cap := 1 }
            boundEvents := [("my-event", [9])] }
        { event := pusherError, data := "boom", channel := "" }).1).connected = true ∧
    ((listenStep idHandle
        { baseState with
            connected := true
            errors := some { buf := [], cap := 1 }
            boundEvents := [("my-event", [9])] }
        { event := pusherError, data := "boom", channel := "" }).1).boundEvents =
      [("my-event", [9])] := by
  have h := error_envelope_forward_frame idHandle
    { baseState with
        connected := true
        errors := some { buf := [], cap := 1 }
        boundEvents := [("my-event", [9])] }
    { event := pusherError, data := "boom", channel := "" } rfl rfl
  refine ⟨?_, h.1, h.2.1⟩
  exact h.2.2.2.2.2.2.2.2.2.1 { buf := [], cap := 1 } rfl (by decide)

/-- C4: a second `Subscribe` with the same name returns the identical channel
entry the first call created and leaves the registry unchanged (one entry per
name); when the entry has reached the subscribed state, the second call sends
no protocol subscribe request (a re-send happens only for a not-yet-succeeded
subscription, which is the explicit-retry path). -/
theorem subscribe_idempotent (authOk1 authOk2 : Bool) (c : ClientState) (name : String) :
    (clientSubscribe authOk2 (clientSubscribe authOk1 c name).1 name).2.1 =
      (clientSubscribe authOk1 c name).2.1 ∧
    (clientSubscribe authOk2 (clientSubscribe authOk1 c name).1 name).1 =
      (clientSubscribe authOk1 c name).1 ∧
    ((clientSubscribe authOk1 c name).2.1.subscribed = true →
       (clientSubscribe authOk2 (clientSubscribe authOk1 c name).1 name).2.2.1 = []) := by
  rcases hm : regLookup c.subscribedChannels name with _ | ch
  · refine ⟨?_, ?_, ?_⟩ <;>
      simp [clientSubscribe, hm, regLookup, channelSubscribeSends, newChannelEntry]
  · have h2 : (clientSubscribe authOk1 c name).1 = c := by
      simp [clientSubscribe, hm]
    refine ⟨?_, ?_, ?_⟩ <;> simp [clientSubscribe, hm, h2]
    intro hsub
    simp [channelSubscribeSends, hsub]

/-- Witness for C4: with an already-subscribed entry registered under
"my-channel", a repeated `Subscribe` returns that same entry, keeps the
registry as is, and sends nothing. -/
theorem subscribe_idempotent_witness :
    (clientSubscribe true
        (clientSubscribe true
          { baseState with
              connected := true
              subscribedChannels :=
                [("my-channel",
                  { name := "my-channel", kind := ChannelKind.publicChan, subscribed := true,
                    boundEvents := [], members := [] })] }
          "my-channel").1
        "my-channel").2.2.1 = [] ∧
    (clientSubscribe true
        (clientSubscribe true
          { baseState with
              connected := true
              subscribedChannels :=
                [("my-channel",
                  { name := "my-channel", kind := ChannelKind.publicChan, subscribed := true,
                    boundEvents := [], members := [] })] }
          "my-channel").1
        "my-channel").2.1 =
      { name := "my-channel", kind := ChannelKind.publicChan, subscribed := true,
        boundEvents := [], members := [] } := by
  have h := subscribe_idempotent true true
    { baseState with
        connected := true
        subscribedChannels :=
          [("my-channel",
            { name := "my-channel", kind := ChannelKind.publicChan, subscribed := true,
              boundEvents := [], members := [] })] }
    "my-channel"
  exact ⟨h.2.2 (by decide), by rw [h.1]; decide⟩

/-- C5: for a name not yet in the registry, `Subscribe` picks the entry
variant purely from the name's prefix — "private-" gives the private variant,
"presence-" the presence variant, anything else the public variant — and
registers the new entry under that name. -/
theorem subscribe_classifies_by_name (authOk : Bool) (c : ClientState) (name : String)
    (h : regLookup c.subscribedChannels name = none) :
    (hasPfx name "private-" = true →
       (clientSubscribe authOk c name).2.1.kind = ChannelKind.privateChan) ∧
    (hasPfx name "presence-" = true →
       (clientSubscribe authOk c name).2.1.kind = ChannelKind.presenceChan) ∧
    (hasPfx name "private-" = false → hasPfx name "presence-" = false →
       (clientSubscribe authOk c name).2.1.kind = ChannelKind.publicChan) ∧
    regLookup ((clientSubscribe authOk c name).1).subscribedChannels name =
      some (clientSubscribe authOk c name).2.1 := by
  refine ⟨fun hp => ?_, fun hp => ?_, fun hp hq => ?_, ?_⟩
  · simp [clientSubscribe, h, newChannelEntry, hp]
  · simp [clientSubscribe, h, newChannelEntry, hp, presence_not_private name hp]
  · simp [clientSubscribe, h, newChannelEntry, hp, hq]
  · simp [clientSubscribe, h, regLookup]

/-- Witness for C5: the three prefix classes on concrete names. -/
theorem subscribe_classifies_by_name_witness :
    (clientSubscribe true baseState "private-orders").2.1.kind = ChannelKind.privateChan ∧
    (clientSubscribe true baseState "presence-room").2.1.kind = ChannelKind.presenceChan ∧
    (clientSubscribe true baseState "news").2.1.kind = ChannelKind.publicChan := by
  refine ⟨?_, ?_, ?_⟩
  · exact (subscribe_classifies_by_name true baseState "private-orders" rfl).1 (by decide)
  · exact (subscribe_classifies_by_name true baseState "presence-room" rfl).2.1 (by decide)
  · exact (subscribe_classifies_by_name true baseState "news" rfl).2.2.1 (by decide) (by decide)

/-- C6: `Disconnect` sends exactly one value to each registered close listener
— the wrapped disconnect cause when one was recorded, nil on graceful close —
closes each listener's channel, and clears the listener list, so a repeated
`Disconnect` notifies nobody. -/
theorem disconnect_broadcasts_once (c : ClientState) :
    (clientDisconnect c).notified =
      c.closes.map (fun id => (id, disconnectNote c.disconnectErr)) ∧
    (clientDisconnect c).closedChans = c.closes ∧
    ((clientDisconnect c).state).closes = [] ∧
    (clientDisconnect ((clientDisconnect c).state)).notified = [] ∧
    (c.disconnectErr = none → ∀ p ∈ (clientDisconnect c).notified, p.2 = none) ∧
    (∀ e, c.disconnectErr = some e →
       ∀ p ∈ (clientDisconnect c).notified, p.2 = some (GoError.wrapped e)) := by
  refine ⟨rfl, rfl, rfl, ?_, fun h p hp => ?_, fun e h p hp => ?_⟩
  · simp [clientDisconnect]
  · rcases List.mem_map.1 hp with ⟨id, -, hid⟩
    simp [← hid, disconnectNote, h]
  · rcases List.mem_map.1 hp with ⟨id, -, hid⟩
    simp [← hid, disconnectNote, h]

/-- Witness for C6: a session that recorded a read failure notifies both of
its two listeners with the wrapped error exactly once; re-disconnecting
notifies nobody. -/
theorem disconnect_broadcasts_once_witness :
    (clientDisconnect
        { baseState with
            closes := [1, 2]
            disconnectErr := some (GoError.msg "read failed") }).notified =
      [(1, some (GoError.wrapped (GoError.msg "read failed"))),
       (2, some (GoError.wrapped (GoError.msg "read failed")))] ∧
    (clientDisconnect
        ((clientDisconnect
          { baseState with
              closes := [1, 2]
              disconnectErr := some (GoError.msg "read failed") }).state)).notified = [] := by
  have h := disconnect_broadcasts_once
    { baseState with
        closes := [1, 2]
        disconnectErr := some (GoError.msg "read failed") }
  refine ⟨?_, h.2.2.2.1⟩
  rw [h.1]
  decide

/-- C8: `Unsubscribe` on a name with no registry entry returns nil, sends no
protocol envelope and leaves the registry unchanged; on a name with an entry
it removes exactly that entry — whatever its subscription state — leaves every
other name's entry in place, and sends the unsubscribe protocol envelope. -/
theorem unsubscribe_cases (c : ClientState) (name : String) :
    (regLookup c.subscribedChannels name = none →
       clientUnsubscribe c name = (c, none, [])) ∧
    (∀ ch, regLookup c.subscribedChannels name = some ch →
       regLookup ((clientUnsubscribe c name).1).subscribedChannels name = none ∧
       (∀ other, other ≠ name →
          regLookup ((clientUnsubscribe c name).1).subscribedChannels other =
            regLookup c.subscribedChannels other) ∧
       (clientUnsubscribe c name).2.2 = [pusherUnsubscribe]) := by
  refine ⟨fun h => ?_, fun ch h => ⟨?_, fun other ho => ?_, ?_⟩⟩
  · simp [clientUnsubscribe, h]
  · simp [clientUnsubscribe, h, regLookup_erase_self]
  · simp [clientUnsubscribe, h, regLookup_erase_other _ _ _ ho]
  · simp [clientUnsubscribe, h, channelUnsubscribeSends]

/-- Witness for C8: unsubscribing an unknown name is a silent no-op, and
unsubscribing a registered (never-acknowledged) entry removes it, keeps the
other entry, and sends pusher:unsubscribe. -/
theorem unsubscribe_cases_witness :
    clientUnsubscribe baseState "ghost" = (baseState, none, []) ∧
    regLookup ((clientUnsubscribe
        { baseState with
            subscribedChannels :=
              [("a", { name := "a", kind := ChannelKind.publicChan, subscribed := false,
                       boundEvents := [], members := [] }),
               ("b", { name := "b", kind := ChannelKind.publicChan, subscribed := true,
                       boundEvents := [], members := [] })] }
        "a").1).subscribedChannels "a" = none ∧
    regLookup ((clientUnsubscribe
        { baseState with
            subscribedChannels :=
              [("a", { name := "a", kind := ChannelKind.publicChan, subscribed := false,
                       boundEvents := [], members := [] }),
               ("b", { name := "b", kind := ChannelKind.publicChan, subscribed := true,
                       boundEvents := [], members := [] })] }
        "a").1).subscribedChannels "b" =
      some { name := "b", kind := ChannelKind.publicChan, subscribed := true,
             boundEvents := [], members := [] } ∧
    (clientUnsubscribe
        { baseState with
            subscribedChannels :=
              [("a", { name := "a", kind := ChannelKind.publicChan, subscribed := false,
                       boundEvents := [], members := [] }),
               ("b", { name := "b", kind := ChannelKind.publicChan, subscribed := true,
                       boundEvents := [], members := [] })] }
        "a").2.2 = [pusherUnsubscribe] := by
  have h := unsubscribe_cases
    { baseState with
        subscribedChannels :=
          [("a", { name := "a", kind := ChannelKind.publicChan, subscribed := false,
                   boundEvents := [], members := [] }),
           ("b", { name := "b", kind := ChannelKind.publicChan, subscribed := true,
                   boundEvents := [], members := [] })] }
    "a"
  have hfound := h.2
    { name := "a", kind := ChannelKind.publicChan, subscribed := false,
      boundEvents := [], members := [] } (by decide)
  refine ⟨(unsubscribe_cases baseState "ghost").1 rfl, hfound.1, ?_, hfound.2.2⟩
  rw [hfound.2.1 "b" (by decide)]
  decide

/-- C10: `Disconnect` on a client whose websocket handle was never established
returns nil rather than failing: it clears the connected flag, notifies each
registered close listener with a nil value, closes their channels, and skips
closing the absent transport. -/
theorem disconnect_without_transport (c : ClientState)
    (hws : c.ws = none) (herr : c.disconnectErr = none) :
    (clientDisconnect c).ret = none ∧
    ((clientDisconnect c).state).connected = false ∧
    (clientDisconnect c).notified = c.closes.map (fun id => (id, none)) ∧
    (clientDisconnect c).closedChans = c.closes := by
  refine ⟨?_, rfl, ?_, rfl⟩
  · simp [clientDisconnect, hws]
  · simp [clientDisconnect, disconnectNote, herr]

/-- Witness for C10: a never-connected client with one registered listener
disconnects with a nil return and a nil notification. -/
theorem disconnect_without_transport_witness :
    (clientDisconnect { baseState with closes := [5] }).ret = none ∧
    (clientDisconnect { baseState with closes := [5] }).notified = [(5, none)] := by
  have h := disconnect_without_transport { baseState with closes := [5] } rfl rfl
  refine ⟨h.1, ?_⟩
  rw [h.2.2.1]
  decide

end PusherWs
